import Mathlib

/-!
Verification development for the gnome-gamma-tool repository (CLI
`gnome-gamma-tool.py` and GUI `gnome-gamma-tool-gui.py`).

The Python sources are shallowly embedded:
* the per-channel gamma arithmetic (Python floats, `**`) is modelled over `ℝ`
  with `Real.rpow`;
* parameter parsing (`float_per_color`) works on the list of parsed channel
  values, modelled over `ℚ`;
* the colord daemon (an external collaborator) is modelled by explicit state:
  a device is its ordered profile list with the default profile first, and the
  black-body lookup `Colord.color_get_blackbody_rgb_full` is an opaque-to-us
  RGB value handed to `generate_vcgt` as `temp_color`.
-/

namespace GGT

/-- Source constant `N_SAMPLES = 256` (gnome-gamma-tool.py line 27). -/
def N_SAMPLES : ℕ := 256

/-- Source constant `TIMEOUT = 4` seconds (gnome-gamma-tool.py line 30). -/
def TIMEOUT : ℚ := 4

/-- Source constant `POLL_INTERVAL = 0.01` seconds (gnome-gamma-tool.py line 31). -/
def POLL_INTERVAL : ℚ := 1 / 100

/-- Source constant `OUR_PREFIX = "gnome-gamma-tool-"` (line 28), the reserved
filename marker of tool-generated profiles. -/
def OUR_PREFIX_STR : String := "gnome-gamma-tool-"

/-- A `Colord.ColorRGB` value: three float channels. -/
structure RGB where
  R : ℝ
  G : ℝ
  B : ℝ

instance : Inhabited RGB := ⟨⟨0, 0, 0⟩⟩

/-- Channel accessor: channel 0 is R, 1 is G, 2 is B. -/
def RGB.chan (p : RGB) : Fin 3 → ℝ
  | 0 => p.R
  | 1 => p.G
  | 2 => p.B

/-- `linear_map` from gnome-gamma-tool.py lines 34-36. -/
noncomputable def linear_map (x smin smax dmin dmax : ℝ) : ℝ :=
  (x - smin) / (smax - smin) * (dmax - dmin) + dmin

/-- `generate_vcgt` from gnome-gamma-tool.py lines 39-68.  The black-body
lookup for `color_temperature` is external (libcolord); its result is passed
in as `temp_color`.  Per sample `i` and channel: gamma/temperature step, then
contrast clamp, then brightness map, exactly as in the source. -/
noncomputable def generate_vcgt (temp_color : RGB)
    (gamma contrast bmin bmax : Fin 3 → ℝ) : List RGB :=
  (List.range N_SAMPLES).map (fun (i : ℕ) =>
    let gamma_factor : Fin 3 → ℝ := fun c => 1 / gamma c
    let x : ℝ := (i : ℝ) / ((N_SAMPLES : ℝ) - 1)
    -- gamma and temperature
    let r1 := temp_color.R * x ^ gamma_factor 0
    let g1 := temp_color.G * x ^ gamma_factor 1
    let b1 := temp_color.B * x ^ gamma_factor 2
    -- contrast
    let r2 := max 0 (min (contrast 0 * (r1 - 0.5) + 0.5) 1)
    let g2 := max 0 (min (contrast 1 * (g1 - 0.5) + 0.5) 1)
    let b2 := max 0 (min (contrast 2 * (b1 - 0.5) + 0.5) 1)
    -- brightness map
    ⟨linear_map r2 0 1 (bmin 0) (bmax 0),
     linear_map g2 0 1 (bmin 1) (bmax 1),
     linear_map b2 0 1 (bmin 2) (bmax 2)⟩)

/-- `linear_map` as written in gnome-gamma-tool-gui.py lines 43-44. -/
noncomputable def gui_linear_map (x smin smax dmin dmax : ℝ) : ℝ :=
  (x - smin) / (smax - smin) * (dmax - dmin) + dmin

/-- `generate_vcgt` as written in gnome-gamma-tool-gui.py lines 47-72,
embedded separately from the CLI variant so the two can be compared. -/
noncomputable def gui_generate_vcgt (temp_color : RGB)
    (gamma contrast bmin bmax : Fin 3 → ℝ) : List RGB :=
  (List.range N_SAMPLES).map (fun (i : ℕ) =>
    let gamma_factor : Fin 3 → ℝ := fun c => 1 / gamma c
    let x : ℝ := (i : ℝ) / ((N_SAMPLES : ℝ) - 1)
    let r1 := temp_color.R * x ^ gamma_factor 0
    let g1 := temp_color.G * x ^ gamma_factor 1
    let b1 := temp_color.B * x ^ gamma_factor 2
    let r2 := max 0 (min (contrast 0 * (r1 - 0.5) + 0.5) 1)
    let g2 := max 0 (min (contrast 1 * (g1 - 0.5) + 0.5) 1)
    let b2 := max 0 (min (contrast 2 * (b1 - 0.5) + 0.5) 1)
    ⟨gui_linear_map r2 0 1 (bmin 0) (bmax 0),
     gui_linear_map g2 0 1 (bmin 1) (bmax 1),
     gui_linear_map b2 0 1 (bmin 2) (bmax 2)⟩)

/-- The scalar-expansion step of `float_per_color` (line 116-117): a single
parsed value (no colon in the argument) is replicated to all three channels.
The input is the list of floats obtained from the colon-split argument. -/
def expand_scalar (parts : List ℚ) : List ℚ :=
  match parts with
  | [x] => [x, x, x]
  | _ => parts

/-- `float_per_color` from gnome-gamma-tool.py lines 115-124, acting on the
parsed channel values: scalar expansion, then (when `fit` is set and the
maximum exceeds 1) division of every channel by that maximum. -/
def float_per_color (parts : List ℚ) (fit : Bool) : List ℚ :=
  let val := expand_scalar parts
  match val.max? with
  | none => val
  | some maxval => if fit ∧ 1 < maxval then val.map (fun x => x / maxval) else val

/-! ### Helper lemmas about `generate_vcgt` -/

theorem getD_map_range {α : Type} {n i : ℕ} (f : ℕ → α) (d : α) (h : i < n) :
    ((List.range n).map f).getD i d = f i := by
  simp [List.getD_eq_getElem?_getD, List.getElem?_map, List.getElem?_range, h]

theorem generate_vcgt_length (t : RGB) (gamma contrast bmin bmax : Fin 3 → ℝ) :
    (generate_vcgt t gamma contrast bmin bmax).length = N_SAMPLES := by
  rw [generate_vcgt, List.length_map, List.length_range]

/-- Closed form of the `i`-th table entry, for `i < N_SAMPLES`. -/
theorem generate_vcgt_getD (t : RGB) (gamma contrast bmin bmax : Fin 3 → ℝ)
    (i : ℕ) (d : RGB) (h : i < N_SAMPLES) :
    (generate_vcgt t gamma contrast bmin bmax).getD i d =
      ⟨linear_map (max 0 (min (contrast 0 *
          (t.R * ((i : ℝ) / ((N_SAMPLES : ℝ) - 1)) ^ (1 / gamma 0) - 0.5) + 0.5) 1))
          0 1 (bmin 0) (bmax 0),
       linear_map (max 0 (min (contrast 1 *
          (t.G * ((i : ℝ) / ((N_SAMPLES : ℝ) - 1)) ^ (1 / gamma 1) - 0.5) + 0.5) 1))
          0 1 (bmin 1) (bmax 1),
       linear_map (max 0 (min (contrast 2 *
          (t.B * ((i : ℝ) / ((N_SAMPLES : ℝ) - 1)) ^ (1 / gamma 2) - 0.5) + 0.5) 1))
          0 1 (bmin 2) (bmax 2)⟩ := by
  unfold generate_vcgt
  exact getD_map_range _ _ h

/-- The clamp produced by the contrast step lies in `[0, 1]`. -/
theorem clamp_mem_unit (z : ℝ) : 0 ≤ max 0 (min z 1) ∧ max 0 (min z 1) ≤ 1 :=
  ⟨le_max_left 0 _, max_le (by norm_num) (min_le_right z 1)⟩

/-- The brightness remap of a value in `[0,1]` stays in `[0,1]` when both
brightness bounds are in `[0,1]`. -/
theorem linear_map_unit_bounds (v bn bx : ℝ) (hv0 : 0 ≤ v) (hv1 : v ≤ 1)
    (hbn0 : 0 ≤ bn) (hbn1 : bn ≤ 1) (hbx0 : 0 ≤ bx) (hbx1 : bx ≤ 1) :
    0 ≤ linear_map v 0 1 bn bx ∧ linear_map v 0 1 bn bx ≤ 1 := by
  unfold linear_map
  constructor
  · nlinarith [mul_nonneg hv0 hbx0, mul_nonneg (sub_nonneg.mpr hv1) hbn0]
  · nlinarith [mul_nonneg hv0 (sub_nonneg.mpr hbx1),
      mul_nonneg (sub_nonneg.mpr hv1) (sub_nonneg.mpr hbn1)]

/-! ### Claim theorems on the gamma table -/

/-- Claim C2: for every sample index `i < 256` and channel `c`, the table
entry is obtained by (1) `blackbody[c] * (i/255)^(1/gamma[c])`, then
(2) `clamp(contrast[c]*(value-0.5)+0.5, 0, 1)`, then
(3) `value*(max[c]-min[c])+min[c]`, in that order. -/
theorem c2_fixed_order_formula (t : RGB) (gamma contrast bmin bmax : Fin 3 → ℝ)
    (i : ℕ) (hi : i < 256) (c : Fin 3) :
    ((generate_vcgt t gamma contrast bmin bmax).getD i default).chan c =
      max 0 (min (contrast c * (t.chan c * ((i : ℝ) / 255) ^ (1 / gamma c) - 0.5) + 0.5) 1)
        * (bmax c - bmin c) + bmin c := by
  have h : i < N_SAMPLES := hi
  rw [generate_vcgt_getD t gamma contrast bmin bmax i default h,
    show ((N_SAMPLES : ℝ) - 1) = 255 by norm_num [N_SAMPLES]]
  match c with
  | 0 => simp only [RGB.chan]; unfold linear_map; ring
  | 1 => simp only [RGB.chan]; unfold linear_map; ring
  | 2 => simp only [RGB.chan]; unfold linear_map; ring

/-- Claim C2 witness at a concrete input. -/
theorem c2_fixed_order_formula_witness :
    ((generate_vcgt ⟨1, 1, 1⟩ (fun _ => 1) (fun _ => 1) (fun _ => 0) (fun _ => 1)).getD 255 default).chan 0 =
      max 0 (min ((1 : ℝ) * ((1 : ℝ) * ((255 : ℝ) / 255) ^ ((1 : ℝ) / 1) - 0.5) + 0.5) 1)
        * ((1 : ℝ) - 0) + 0 := by
  exact c2_fixed_order_formula ⟨1, 1, 1⟩ (fun _ => 1) (fun _ => 1) (fun _ => 0) (fun _ => 1)
    255 (by norm_num) 0

/-! ### Helper lemmas about parameter parsing -/

instance : Std.Antisymm (fun (a b : ℚ) => a ≤ b) :=
  ⟨fun h h' => le_antisymm h h'⟩

theorem max?_eq_some_iff_q {l : List ℚ} {m : ℚ} :
    l.max? = some m ↔ m ∈ l ∧ ∀ b ∈ l, b ≤ m :=
  List.max?_eq_some_iff (fun a => le_refl a) (fun a b => max_choice a b)
    (fun _ _ _ => max_le_iff)

/-- Evaluation of `float_per_color` once the maximum of the expanded value
list is known. -/
theorem float_per_color_eq (parts : List ℚ) (fit : Bool) (m : ℚ)
    (hm : (expand_scalar parts).max? = some m) :
    float_per_color parts fit =
      if fit ∧ 1 < m then (expand_scalar parts).map (fun x => x / m)
      else expand_scalar parts := by
  simp only [float_per_color]
  rw [hm]

theorem getD_map_div (l : List ℚ) (m : ℚ) (i : ℕ) :
    (l.map (fun x => x / m)).getD i 0 = l.getD i 0 / m := by
  rcases Nat.lt_or_ge i l.length with hi | hi
  · rw [List.getD_eq_getElem _ 0 (by simpa using hi), List.getD_eq_getElem _ 0 hi,
      List.getElem_map]
  · rw [List.getD_eq_default _ 0 (by simpa using hi), List.getD_eq_default _ 0 hi, zero_div]

theorem expand_scalar_mem {parts : List ℚ} {y : ℚ} : y ∈ expand_scalar parts → y ∈ parts := by
  unfold expand_scalar
  match parts with
  | [] => exact id
  | [x] => intro h; simpa using h
  | a :: b :: l => exact id

theorem getD_bounds_q {l : List ℚ} (h : ∀ y ∈ l, 0 ≤ y ∧ y ≤ 1) (i : ℕ) :
    0 ≤ l.getD i 0 ∧ l.getD i 0 ≤ 1 := by
  rcases Nat.lt_or_ge i l.length with hi | hi
  · rw [List.getD_eq_getElem l 0 hi]
    exact h _ (List.getElem_mem hi)
  · rw [List.getD_eq_default l 0 hi]
    norm_num

/-- With fitting enabled and all parsed channel values nonnegative, every
value returned by `float_per_color` lies in `[0, 1]`. -/
theorem float_per_color_fit_bounds {parts : List ℚ} (h0 : ∀ x ∈ parts, 0 ≤ x) :
    ∀ y ∈ float_per_color parts true, 0 ≤ y ∧ y ≤ 1 := by
  intro y hy
  rcases hmax : (expand_scalar parts).max? with _ | m
  · have hnil : expand_scalar parts = [] := by
      rcases hv : expand_scalar parts with _ | ⟨a, l⟩
      · rfl
      · rw [hv] at hmax
        simp [List.max?] at hmax
    simp only [float_per_color, hnil] at hy
    simp at hy
  · rw [float_per_color_eq parts true m hmax] at hy
    obtain ⟨hmem, hub⟩ := max?_eq_some_iff_q.mp hmax
    by_cases h1 : 1 < m
    · rw [if_pos ⟨rfl, h1⟩] at hy
      rcases List.mem_map.mp hy with ⟨x, hx, rfl⟩
      have hm0 : 0 < m := lt_trans one_pos h1
      constructor
      · exact div_nonneg (h0 x (expand_scalar_mem hx)) (le_of_lt hm0)
      · exact (div_le_one hm0).mpr (hub x hx)
    · rw [if_neg (fun hc => h1 hc.2)] at hy
      exact ⟨h0 y (expand_scalar_mem hy), le_trans (hub y hy) (not_lt.mp h1)⟩

/-! ### Claim C4: brightness fitting -/

/-- Claim C4: with fitting enabled, if the maximum parsed channel value `m`
exceeds 1 then every channel is divided by `m` (the peak becomes exactly 1
and pairwise channel ratios are preserved, stated by cross-multiplication);
if no channel exceeds 1, the values are returned unchanged. -/
theorem c4_brightness_fitting (parts : List ℚ) (m : ℚ)
    (hm : (expand_scalar parts).max? = some m) :
    (1 < m →
      float_per_color parts true = (expand_scalar parts).map (fun x => x / m) ∧
      (1 : ℚ) ∈ float_per_color parts true ∧
      (∀ y ∈ float_per_color parts true, y ≤ 1) ∧
      (∀ i j : ℕ, (float_per_color parts true).getD i 0 * (expand_scalar parts).getD j 0
          = (float_per_color parts true).getD j 0 * (expand_scalar parts).getD i 0)) ∧
    (¬ 1 < m → float_per_color parts true = expand_scalar parts) := by
  obtain ⟨hmem, hub⟩ := max?_eq_some_iff_q.mp hm
  have heq := float_per_color_eq parts true m hm
  constructor
  · intro h1
    have hm0 : 0 < m := lt_trans one_pos h1
    rw [heq, if_pos ⟨rfl, h1⟩]
    refine ⟨rfl, ?_, ?_, ?_⟩
    · exact List.mem_map.mpr ⟨m, hmem, div_self (ne_of_gt hm0)⟩
    · intro y hy
      rcases List.mem_map.mp hy with ⟨x, hx, rfl⟩
      exact (div_le_one hm0).mpr (hub x hx)
    · intro i j
      rw [getD_map_div, getD_map_div]
      ring
  · intro h1
    rw [heq, if_neg (fun hc => h1 hc.2)]

/-- Claim C4 witness: the specification example "1.5:1:1" is fitted to
`[1, 1/1.5, 1/1.5] = [1, 2/3, 2/3]`. -/
theorem c4_brightness_fitting_witness :
    (expand_scalar [3/2, 1, 1]).max? = some (3/2 : ℚ) ∧
    float_per_color [3/2, 1, 1] true = [1, 2/3, 2/3] := by
  have hm : (expand_scalar [3/2, 1, 1]).max? = some (3/2 : ℚ) := by
    refine max?_eq_some_iff_q.mpr ⟨by simp [expand_scalar], ?_⟩
    intro b hb
    simp only [expand_scalar, List.mem_cons, List.not_mem_nil, or_false] at hb
    rcases hb with rfl | rfl | rfl <;> norm_num
  have h := (c4_brightness_fitting [3/2, 1, 1] (3/2) hm).1 (by norm_num)
  refine ⟨hm, ?_⟩
  rw [h.1]
  simp only [expand_scalar, List.map_cons, List.map_nil]
  norm_num

/-! ### Claim C1: table length and channel range -/

/-- Claim C1 (amended): for any black-body colour, any gamma and contrast
vectors and brightness parameters produced by parsing with fitting, the
table has exactly 256 entries; and provided every parsed brightness channel
value is nonnegative (fitting bounds them above by 1 but does not forbid
negative values), every channel of every entry lies in `[0, 1]`. -/
theorem c1_range_amended (t : RGB) (gamma contrast : Fin 3 → ℝ)
    (bminParts bmaxParts : List ℚ)
    (hmin : ∀ x ∈ bminParts, 0 ≤ x) (hmax : ∀ x ∈ bmaxParts, 0 ≤ x) :
    (generate_vcgt t gamma contrast
        (fun c => (((float_per_color bminParts true).getD c.val 0 : ℚ) : ℝ))
        (fun c => (((float_per_color bmaxParts true).getD c.val 0 : ℚ) : ℝ))).length = 256 ∧
    ∀ i : ℕ, i < 256 → ∀ ch : Fin 3,
      0 ≤ ((generate_vcgt t gamma contrast
        (fun c => (((float_per_color bminParts true).getD c.val 0 : ℚ) : ℝ))
        (fun c => (((float_per_color bmaxParts true).getD c.val 0 : ℚ) : ℝ))).getD i default).chan ch ∧
      ((generate_vcgt t gamma contrast
        (fun c => (((float_per_color bminParts true).getD c.val 0 : ℚ) : ℝ))
        (fun c => (((float_per_color bmaxParts true).getD c.val 0 : ℚ) : ℝ))).getD i default).chan ch ≤ 1 := by
  have hb1 := float_per_color_fit_bounds hmin
  have hb2 := float_per_color_fit_bounds hmax
  refine ⟨generate_vcgt_length t gamma contrast _ _, ?_⟩
  intro i hi ch
  rw [generate_vcgt_getD t gamma contrast _ _ i default (show i < N_SAMPLES from hi)]
  have key : ∀ (z : ℝ) (j : ℕ),
      0 ≤ linear_map (max 0 (min z 1)) 0 1
        (((float_per_color bminParts true).getD j 0 : ℚ) : ℝ)
        (((float_per_color bmaxParts true).getD j 0 : ℚ) : ℝ) ∧
      linear_map (max 0 (min z 1)) 0 1
        (((float_per_color bminParts true).getD j 0 : ℚ) : ℝ)
        (((float_per_color bmaxParts true).getD j 0 : ℚ) : ℝ) ≤ 1 := by
    intro z j
    have h1 := getD_bounds_q hb1 j
    have h2 := getD_bounds_q hb2 j
    exact linear_map_unit_bounds _ _ _ (clamp_mem_unit z).1 (clamp_mem_unit z).2
      (by exact_mod_cast h1.1) (by exact_mod_cast h1.2)
      (by exact_mod_cast h2.1) (by exact_mod_cast h2.2)
  match ch with
  | 0 => simpa only [RGB.chan] using key _ 0
  | 1 => simpa only [RGB.chan] using key _ 1
  | 2 => simpa only [RGB.chan] using key _ 2

/-- Claim C1 witness: neutral parameters parsed from "0" and "1". -/
theorem c1_range_amended_witness :
    (∀ x ∈ ([0] : List ℚ), 0 ≤ x) ∧ (∀ x ∈ ([1] : List ℚ), 0 ≤ x) ∧
    ((generate_vcgt ⟨1, 1, 1⟩ (fun _ => 1) (fun _ => 1)
        (fun c => (((float_per_color [0] true).getD c.val 0 : ℚ) : ℝ))
        (fun c => (((float_per_color [1] true).getD c.val 0 : ℚ) : ℝ))).length = 256 ∧
    ∀ i : ℕ, i < 256 → ∀ ch : Fin 3,
      0 ≤ ((generate_vcgt ⟨1, 1, 1⟩ (fun _ => 1) (fun _ => 1)
        (fun c => (((float_per_color [0] true).getD c.val 0 : ℚ) : ℝ))
        (fun c => (((float_per_color [1] true).getD c.val 0 : ℚ) : ℝ))).getD i default).chan ch ∧
      ((generate_vcgt ⟨1, 1, 1⟩ (fun _ => 1) (fun _ => 1)
        (fun c => (((float_per_color [0] true).getD c.val 0 : ℚ) : ℝ))
        (fun c => (((float_per_color [1] true).getD c.val 0 : ℚ) : ℝ))).getD i default).chan ch ≤ 1) :=
  ⟨by norm_num, by norm_num,
    c1_range_amended ⟨1, 1, 1⟩ (fun _ => 1) (fun _ => 1) [0] [1]
      (by norm_num) (by norm_num)⟩

/-- Claim C1 counterexample: the parameter string "-1" for maximum
brightness parses (with fitting) to `[-1, -1, -1]`, and with it the final
table entry has R-channel `-1`, outside `[0, 1]`.  So not every table built
from parsed parameters stays within `[0, 1]`. -/
theorem c1_counterexample :
    float_per_color [-1] true = [-1, -1, -1] ∧
    ((generate_vcgt ⟨1, 1, 1⟩ (fun _ => 1) (fun _ => 1)
        (fun c => (((float_per_color [-1/255] true).getD c.val 0 : ℚ) : ℝ))
        (fun c => (((float_per_color [-1] true).getD c.val 0 : ℚ) : ℝ))).getD 255 default).chan 0
      = -1 := by
  have hm : (expand_scalar [-1]).max? = some (-1 : ℚ) := by
    refine max?_eq_some_iff_q.mpr ⟨by simp [expand_scalar], ?_⟩
    intro b hb
    simp only [expand_scalar, List.mem_cons, List.not_mem_nil, or_false] at hb
    rcases hb with rfl | rfl | rfl <;> norm_num
  have hfit : float_per_color [-1] true = [-1, -1, -1] := by
    rw [float_per_color_eq [-1] true (-1) hm, if_neg (fun hc => by norm_num at hc)]
    simp [expand_scalar]
  refine ⟨hfit, ?_⟩
  rw [generate_vcgt_getD _ _ _ _ _ 255 default (by norm_num [N_SAMPLES])]
  simp only [RGB.chan, hfit]
  have hx : ((255 : ℕ) : ℝ) / ((N_SAMPLES : ℝ) - 1) = 1 := by
    norm_num [N_SAMPLES]
  rw [hx]
  have hpow : (1 : ℝ) ^ ((1 : ℝ) / 1) = 1 := Real.one_rpow _
  rw [hpow]
  unfold linear_map
  norm_num [List.getD]

/-! ### Claim C3: neutral parameters -/

/-- With neutral gamma, contrast and brightness, one channel of one table
entry reduces to `a * x` when the black-body coordinate `a` and ramp
position `x` both lie in `[0, 1]`. -/
theorem neutral_channel (a x : ℝ) (ha0 : 0 ≤ a) (ha1 : a ≤ 1)
    (hx0 : 0 ≤ x) (hx1 : x ≤ 1) :
    linear_map (max 0 (min ((1 : ℝ) * (a * x ^ ((1 : ℝ) / 1) - 0.5) + 0.5) 1)) 0 1 0 1
      = a * x := by
  rw [one_div_one, Real.rpow_one]
  have hv0 : 0 ≤ a * x := mul_nonneg ha0 hx0
  have hv1 : a * x ≤ 1 := by nlinarith
  have h1 : (1 : ℝ) * (a * x - 0.5) + 0.5 = a * x := by ring
  rw [h1, min_eq_left hv1, max_eq_right hv0]
  unfold linear_map
  norm_num

/-- Claim C3: with neutral parameters (gamma 1, contrast 1, min 0, max 1)
and a black-body colour with components in `[0, 1]` (as the colord table
provides), every table entry is the unmodified black-body ramp
`blackbody[c] * (i / 255)`. -/
theorem c3_neutral_ramp (t : RGB)
    (hR : 0 ≤ t.R ∧ t.R ≤ 1) (hG : 0 ≤ t.G ∧ t.G ≤ 1) (hB : 0 ≤ t.B ∧ t.B ≤ 1)
    (i : ℕ) (hi : i < 256) (c : Fin 3) :
    ((generate_vcgt t (fun _ => 1) (fun _ => 1) (fun _ => 0) (fun _ => 1)).getD i default).chan c
      = t.chan c * ((i : ℝ) / 255) := by
  rw [generate_vcgt_getD _ _ _ _ _ i default (show i < N_SAMPLES from hi),
    show ((N_SAMPLES : ℝ) - 1) = 255 by norm_num [N_SAMPLES]]
  have hx0 : 0 ≤ (i : ℝ) / 255 := by positivity
  have hx1 : (i : ℝ) / 255 ≤ 1 := by
    rw [div_le_one (by norm_num)]
    exact_mod_cast Nat.lt_succ_iff.mp hi
  match c with
  | 0 => exact neutral_channel t.R _ hR.1 hR.2 hx0 hx1
  | 1 => exact neutral_channel t.G _ hG.1 hG.2 hx0 hx1
  | 2 => exact neutral_channel t.B _ hB.1 hB.2 hx0 hx1

/-- Claim C3 witness at a concrete black-body colour and sample index. -/
theorem c3_neutral_ramp_witness :
    (0 ≤ (1 : ℝ) ∧ (1 : ℝ) ≤ 1) ∧
    ((generate_vcgt ⟨1, 1/2, 1/4⟩ (fun _ => 1) (fun _ => 1) (fun _ => 0)
        (fun _ => 1)).getD 51 default).chan 1 = (1 : ℝ)/2 * ((51 : ℕ) : ℝ) / 255 := by
  refine ⟨⟨by norm_num, le_refl 1⟩, ?_⟩
  have h := c3_neutral_ramp ⟨1, 1/2, 1/4⟩ (by norm_num) (by norm_num) (by norm_num)
    51 (by norm_num) 1
  rw [h]
  show (1 : ℝ)/2 * (((51 : ℕ) : ℝ) / 255) = (1 : ℝ)/2 * ((51 : ℕ) : ℝ) / 255
  ring

/-! ### Claim C10: CLI and GUI table generators agree -/

/-- Claim C10: the CLI `generate_vcgt` and the GUI `generate_vcgt` produce
identical tables for all parameter vectors. -/
theorem c10_cli_gui_generators_equal (t : RGB) (gamma contrast bmin bmax : Fin 3 → ℝ) :
    generate_vcgt t gamma contrast bmin bmax = gui_generate_vcgt t gamma contrast bmin bmax :=
  rfl

/-! ### Profiles and the colord collaborator model

A colord profile is identified by its filename (and a profile id used when
the filename is empty).  A device is its ordered profile list; the default
profile is the head, matching `get_profiles()[0]` in the source. -/

structure CdProfile where
  filename : String
  profile_id : String
deriving DecidableEq

/-- `base_profile.get_filename() or base_profile.get_id()` (line 439). -/
def profile_info (p : CdProfile) : String :=
  if p.filename ≠ "" then p.filename else p.profile_id

/-- `OUR_PREFIX in base_profile_info` (line 440): substring containment. -/
def is_our_profile (p : CdProfile) : Bool :=
  decide (OUR_PREFIX_STR.toList <:+: (profile_info p).toList)

/-! ### Claim C5: the profile-added wait loop -/

/-- `on_profile_added` (lines 318-321): remember the added profile when its
filename matches the desired path. -/
def on_profile_added (desired : String) (received : Option CdProfile)
    (p : CdProfile) : Option CdProfile :=
  if p.filename = desired then some p else received

/-- One `ctx.iteration(False)` call: every pending profile-added signal is
dispatched to `on_profile_added`. -/
def deliver_events (desired : String) (received : Option CdProfile)
    (evs : List CdProfile) : Option CdProfile :=
  evs.foldl (on_profile_added desired) received

/-- The polling loop of `new_profile_with_name` (lines 349-357): each list
entry is the batch of profile-added signals seen by one poll iteration
before the deadline; the loop stops at the first iteration that received a
matching profile.  `received_profile` is reset to `None` before the loop. -/
def pump_loop (desired : String) : List (List CdProfile) → Option CdProfile
  | [] => none
  | evs :: rest =>
    match deliver_events desired none evs with
    | some p => some p
    | none => pump_loop desired rest

/-- `new_profile_with_name` (lines 323-365): after the write-then-rename,
wait for the add notification; on timeout raise "profile was not added in
time", otherwise register the received profile with the device
(`add_profile_sync`, modelled by appending to the device list) and return
it. -/
def new_profile_with_name (cdd : List CdProfile) (desired : String)
    (polls : List (List CdProfile)) : Except String (CdProfile × List CdProfile) :=
  match pump_loop desired polls with
  | none => Except.error "profile was not added in time"
  | some p => Except.ok (p, cdd ++ [p])

theorem deliver_events_none_iff (desired : String) (evs : List CdProfile) :
    ∀ acc, deliver_events desired acc evs = none ↔
      (acc = none ∧ ∀ p ∈ evs, p.filename ≠ desired) := by
  induction evs with
  | nil => intro acc; simp [deliver_events]
  | cons p evs ih =>
    intro acc
    show deliver_events desired (on_profile_added desired acc p) evs = none ↔ _
    rw [ih]
    unfold on_profile_added
    by_cases hp : p.filename = desired
    · simp [hp]
    · simp only [if_neg hp, List.mem_cons]
      constructor
      · rintro ⟨h1, h2⟩
        exact ⟨h1, fun q hq => hq.elim (fun hq => hq ▸ hp) (h2 q)⟩
      · rintro ⟨h1, h2⟩
        exact ⟨h1, fun q hq => h2 q (Or.inr hq)⟩

theorem deliver_events_some (desired : String) (evs : List CdProfile) :
    ∀ acc p, deliver_events desired acc evs = some p →
      (p ∈ evs ∧ p.filename = desired) ∨ acc = some p := by
  induction evs with
  | nil => intro acc p h; exact Or.inr h
  | cons q evs ih =>
    intro acc p h
    rcases ih _ p h with ⟨hmem, hname⟩ | hacc
    · exact Or.inl ⟨List.mem_cons_of_mem q hmem, hname⟩
    · unfold on_profile_added at hacc
      by_cases hq : q.filename = desired
      · rw [if_pos hq] at hacc
        cases hacc
        exact Or.inl ⟨List.mem_cons_self q evs, hq⟩
      · rw [if_neg hq] at hacc
        exact Or.inr hacc

theorem pump_loop_none_iff (desired : String) (polls : List (List CdProfile)) :
    pump_loop desired polls = none ↔
      ∀ evs ∈ polls, ∀ p ∈ evs, p.filename ≠ desired := by
  induction polls with
  | nil => simp [pump_loop]
  | cons evs rest ih =>
    show (match deliver_events desired none evs with
      | some p => some p
      | none => pump_loop desired rest) = none ↔ _
    rcases hdel : deliver_events desired none evs with _ | p
    · simp only [ih, List.mem_cons]
      have hev := (deliver_events_none_iff desired evs none).mp hdel
      constructor
      · intro h e he
        rcases he with rfl | he
        · exact hev.2
        · exact h e he
      · intro h e he
        exact h e (Or.inr he)
    · simp only [List.mem_cons]
      constructor
      · intro h; exact absurd h (by simp)
      · intro h
        rcases deliver_events_some desired evs none p hdel with ⟨hmem, hname⟩ | habs
        · exact absurd hname (h evs (Or.inl rfl) p hmem)
        · exact absurd habs (by simp)

theorem pump_loop_some (desired : String) (polls : List (List CdProfile))
    (p : CdProfile) (h : pump_loop desired polls = some p) :
    p.filename = desired ∧ ∃ evs ∈ polls, p ∈ evs := by
  induction polls with
  | nil => exact absurd h (by simp [pump_loop])
  | cons evs rest ih =>
    rw [show pump_loop desired (evs :: rest) =
      (match deliver_events desired none evs with
        | some q => some q
        | none => pump_loop desired rest) from rfl] at h
    rcases hdel : deliver_events desired none evs with _ | q
    · rw [hdel] at h
      rcases ih h with ⟨hname, e, he, hp⟩
      exact ⟨hname, e, List.mem_cons_of_mem evs he, hp⟩
    · rw [hdel] at h
      cases h
      rcases deliver_events_some desired evs none p hdel with ⟨hmem, hname⟩ | habs
      · exact ⟨hname, evs, List.mem_cons_self evs rest, hmem⟩
      · exact absurd habs (by simp)

/-- Claim C5: `new_profile_with_name` fails with the distinct "profile was
not added in time" error exactly when no poll iteration inside the
4-second/10-millisecond window delivers a profile-added notification whose
filename matches the desired path; when a match does arrive, the received
profile is registered with the device and returned (no retry: a single
window decides the outcome). -/
theorem c5_not_added_in_time (cdd : List CdProfile) (desired : String)
    (polls : List (List CdProfile))
    (_hwindow : (polls.length : ℚ) * POLL_INTERVAL ≤ TIMEOUT) :
    (new_profile_with_name cdd desired polls =
        Except.error "profile was not added in time" ↔
      ∀ evs ∈ polls, ∀ p ∈ evs, p.filename ≠ desired) ∧
    (∀ p dev, new_profile_with_name cdd desired polls = Except.ok (p, dev) →
      p.filename = desired ∧ dev = cdd ++ [p]) := by
  unfold new_profile_with_name
  rcases hp : pump_loop desired polls with _ | p
  · have hall := (pump_loop_none_iff desired polls).mp hp
    refine ⟨⟨fun _ => hall, fun _ => rfl⟩, ?_⟩
    intro q dev h
    exact absurd h (by simp)
  · obtain ⟨hname, evs, hevs, hmem⟩ := pump_loop_some desired polls p hp
    constructor
    · constructor
      · intro h
        exact absurd h (by simp)
      · intro h
        exact absurd hname (h evs hevs p hmem)
    · intro q dev h
      rw [Except.ok.injEq, Prod.mk.injEq] at h
      exact ⟨h.1 ▸ hname, h.2 ▸ h.1 ▸ rfl⟩

/-- Claim C5 witness: a two-iteration window in which the second iteration
delivers the matching notification. -/
theorem c5_not_added_in_time_witness :
    ((2 : ℚ) * POLL_INTERVAL ≤ TIMEOUT) ∧
    ((new_profile_with_name [] "a.icc" [[⟨"b.icc", ""⟩], [⟨"a.icc", ""⟩]] =
        Except.error "profile was not added in time" ↔
      ∀ evs ∈ [[(⟨"b.icc", ""⟩ : CdProfile)], [⟨"a.icc", ""⟩]], ∀ p ∈ evs,
        p.filename ≠ "a.icc") ∧
    (∀ p dev, new_profile_with_name [] "a.icc" [[⟨"b.icc", ""⟩], [⟨"a.icc", ""⟩]] =
        Except.ok (p, dev) → p.filename = "a.icc" ∧ dev = [] ++ [p])) :=
  ⟨by norm_num [POLL_INTERVAL, TIMEOUT],
   c5_not_added_in_time [] "a.icc" [[⟨"b.icc", ""⟩], [⟨"a.icc", ""⟩]]
     (by norm_num [POLL_INTERVAL, TIMEOUT])⟩

/-! ### The interactive confirmation prompt (CLI) -/

/-- Source constant `seconds_to_wait = 10` (line 235). -/
def seconds_to_wait : ℕ := 10

/-- The countdown loop body of `ask_new_settings_ok` (lines 236-247): each
second, `select` waits for input; `keys` records for each one-second step
whether a key arrived (`some ch`) or the second elapsed silently (`none`);
a missing entry means no key for that step.  The loop breaks on the first
key, returning whether it was the letter y. -/
def ask_go : ℕ → List (Option Char) → Bool
  | 0, _ => false
  | _ + 1, [] => false
  | _ + 1, some ch :: _ => ch == 'y'
  | n + 1, none :: rest => ask_go n rest

/-- `ask_new_settings_ok` (lines 226-255). -/
def ask_new_settings_ok (keys : List (Option Char)) : Bool :=
  ask_go seconds_to_wait keys

theorem ask_go_iff (n : ℕ) (keys : List (Option Char)) :
    ask_go n keys = true ↔ (keys.take n).findSome? id = some 'y' := by
  induction n generalizing keys with
  | zero => simp [ask_go]
  | succ n ih =>
    match keys with
    | [] => simp [ask_go]
    | some ch :: rest =>
      show (ch == 'y') = true ↔ ((some ch :: rest).take (n + 1)).findSome? id = some 'y'
      rw [List.take_succ_cons, List.findSome?_cons]
      simp
    | none :: rest =>
      show ask_go n rest = true ↔ ((none :: rest).take (n + 1)).findSome? id = some 'y'
      rw [List.take_succ_cons, List.findSome?_cons]
      exact ih rest

/-! ### Device-level operations and the apply flow -/

/-- `make_profile_default_sync` (collaborator): the default profile is the
head of the profile list of the device. -/
def make_profile_default (dev : List CdProfile) (p : CdProfile) : List CdProfile :=
  p :: dev.erase p

/-- `ProfileMgr.remove_profile` (lines 306-313): ask the service to remove
the profile from the device; `ok` is the answer of the service
(`remove_profile_sync`).  On refusal the device list is unchanged (and a
warning is printed); on success the profile is dropped and its file
deleted. -/
def remove_profile (dev : List CdProfile) (ok : Bool) (p : CdProfile) : List CdProfile :=
  if ok then dev.erase p else dev

/-- The apply path of `main` (lines 448-471) for a device whose profile list
is `base :: rest` (`base` is the current default): register the new profile
`newP` (`new_profile_with_name`, successful), make it the default, then
either revert (interactive prompt declined) or, when the previous default
was tool-generated, remove it.  `removeOk` is the answer of the service to
removal requests. -/
def main_apply (base : CdProfile) (rest : List CdProfile) (newP : CdProfile)
    (isatty yes removeOk : Bool) (keys : List (Option Char)) : List CdProfile :=
  let dev1 := (base :: rest) ++ [newP]
  let dev2 := make_profile_default dev1 newP
  if isatty && !yes && !(ask_new_settings_ok keys) then
    let dev3 := make_profile_default dev2 base
    let dev4 := remove_profile dev3 removeOk newP
    make_profile_default dev4 base
  else if is_our_profile base then
    remove_profile dev2 removeOk base
  else dev2

/-- Registering a fresh profile and making it the default puts it at the
head of the device list. -/
theorem make_default_fresh (base : CdProfile) (rest : List CdProfile)
    (newP : CdProfile) (hfresh : newP ∉ base :: rest) :
    make_profile_default ((base :: rest) ++ [newP]) newP = newP :: base :: rest := by
  unfold make_profile_default
  rw [List.erase_append_right _ hfresh, List.erase_cons_head, List.append_nil]

/-- The committed branch of the apply flow (confirmation not declined). -/
theorem main_apply_committed (base : CdProfile) (rest : List CdProfile)
    (newP : CdProfile) (isatty yes removeOk : Bool) (keys : List (Option Char))
    (hconf : (isatty && !yes && !(ask_new_settings_ok keys)) = false)
    (hfresh : newP ∉ base :: rest) :
    main_apply base rest newP isatty yes removeOk keys =
      (if is_our_profile base then remove_profile (newP :: base :: rest) removeOk base
       else newP :: base :: rest) := by
  simp only [main_apply]
  rw [make_default_fresh base rest newP hfresh]
  simp only [hconf, Bool.false_eq_true, if_false]

/-- The declined branch of the apply flow restores the original device list
exactly (previous default back in front, new profile gone). -/
theorem main_apply_decline (base : CdProfile) (rest : List CdProfile)
    (newP : CdProfile) (keys : List (Option Char))
    (hfresh : newP ∉ base :: rest)
    (hask : ask_new_settings_ok keys = false) :
    main_apply base rest newP true false true keys = base :: rest := by
  have hne : newP ≠ base := fun h => hfresh (h ▸ List.mem_cons_self base rest)
  have h1 : (newP :: base :: rest).erase base = newP :: rest := by
    rw [List.erase_cons_tail (by simpa using hne), List.erase_cons_head]
  have h2 : (base :: newP :: rest).erase newP = base :: rest := by
    rw [List.erase_cons_tail (by simpa using Ne.symm hne), List.erase_cons_head]
  simp only [main_apply]
  rw [make_default_fresh base rest newP hfresh]
  simp only [hask, Bool.not_false, Bool.and_self, Bool.true_and, eq_self_iff_true,
    if_true]
  unfold make_profile_default remove_profile
  rw [if_pos rfl, h1, h2, List.erase_cons_head]

/-! ### Claim C6: at most one tool-generated profile -/

/-- Claim C6 (amended): after a committed apply, the previous default
profile, when tool-generated and when the service honours the removal
request, is removed, and the new profile is the default; hence if the
previous default was the only tool-generated profile on the device, exactly
one tool-generated profile (the new one) remains.  Tool-generated profiles
that were not the current default are not touched, so in general more than
one can persist. -/
theorem c6_previous_default_removed (base : CdProfile) (rest : List CdProfile)
    (newP : CdProfile) (isatty yes : Bool) (keys : List (Option Char))
    (hconf : (isatty && !yes && !(ask_new_settings_ok keys)) = false)
    (hour : is_our_profile base = true)
    (hnew : is_our_profile newP = true)
    (hfresh : newP ∉ base :: rest) :
    main_apply base rest newP isatty yes true keys = newP :: rest ∧
    ((∀ p ∈ rest, is_our_profile p = false) →
      (main_apply base rest newP isatty yes true keys).countP
        (fun p => is_our_profile p) = 1) := by
  have hne : newP ≠ base := fun h => hfresh (h ▸ List.mem_cons_self base rest)
  have hmain : main_apply base rest newP isatty yes true keys = newP :: rest := by
    rw [main_apply_committed base rest newP isatty yes true keys hconf hfresh,
      if_pos hour]
    unfold remove_profile
    rw [if_pos rfl, List.erase_cons_tail (by simpa using hne), List.erase_cons_head]
  refine ⟨hmain, ?_⟩
  intro hrest
  rw [hmain, List.countP_cons, List.countP_eq_zero.mpr ?rest]
  · simp [hnew]
  · intro p hp
    simp [hrest p hp]

/-- Claim C6 witness: previous default tool-generated and alone. -/
theorem c6_previous_default_removed_witness :
    ((false && !true && !(ask_new_settings_ok [])) = false) ∧
    is_our_profile ⟨"gnome-gamma-tool-x.icc", ""⟩ = true ∧
    main_apply ⟨"gnome-gamma-tool-x.icc", ""⟩ [] ⟨"gnome-gamma-tool-y.icc", ""⟩
        false true true [] = [⟨"gnome-gamma-tool-y.icc", ""⟩] :=
  ⟨rfl, by decide,
    (c6_previous_default_removed ⟨"gnome-gamma-tool-x.icc", ""⟩ []
      ⟨"gnome-gamma-tool-y.icc", ""⟩ false true [] rfl (by decide) (by decide)
      (by decide)).1⟩

/-- Claim C6 counterexample: when the current default is not tool-generated
but a tool-generated profile sits elsewhere in the device list, a committed
apply leaves two tool-generated profiles on the device, refuting the
"at most one tool-generated profile persists" invariant. -/
theorem c6_counterexample :
    main_apply ⟨"base.icc", ""⟩ [⟨"gnome-gamma-tool-a.icc", ""⟩]
        ⟨"gnome-gamma-tool-b.icc", ""⟩ false true true []
      = [⟨"gnome-gamma-tool-b.icc", ""⟩, ⟨"base.icc", ""⟩,
         ⟨"gnome-gamma-tool-a.icc", ""⟩] ∧
    (main_apply ⟨"base.icc", ""⟩ [⟨"gnome-gamma-tool-a.icc", ""⟩]
        ⟨"gnome-gamma-tool-b.icc", ""⟩ false true true []).countP
        (fun p => is_our_profile p) = 2 := by
  constructor <;> decide

/-! ### Claim C8: the confirmation countdown -/

/-- Claim C8: with an interactive terminal and no auto-confirm flag, the new
profile stays the device default exactly when the first key received within
the 10 one-second countdown steps is the letter y; any other first key, or
no key at all, declines, and on decline the previous default is restored
and the new profile removed (device list back to its original state). -/
theorem c8_countdown_confirmation (base : CdProfile) (rest : List CdProfile)
    (newP : CdProfile) (keys : List (Option Char))
    (hfresh : newP ∉ base :: rest) :
    ((main_apply base rest newP true false true keys).head? = some newP ↔
      (keys.take 10).findSome? id = some 'y') ∧
    (ask_new_settings_ok keys = false →
      main_apply base rest newP true false true keys = base :: rest) := by
  have hne : newP ≠ base := fun h => hfresh (h ▸ List.mem_cons_self base rest)
  have hiff := ask_go_iff 10 keys
  constructor
  · by_cases hask : ask_new_settings_ok keys = true
    · have hy : (keys.take 10).findSome? id = some 'y' := hiff.mp hask
      have hhead : (main_apply base rest newP true false true keys).head? = some newP := by
        rw [main_apply_committed base rest newP true false true keys
          (by simp [hask]) hfresh]
        by_cases hour : is_our_profile base = true
        · rw [if_pos hour]
          unfold remove_profile
          rw [if_pos rfl, List.erase_cons_tail (by simpa using hne)]
          rfl
        · rw [if_neg hour]
          rfl
      simp [hhead, hy]
    · have hask' : ask_new_settings_ok keys = false := by
        cases h : ask_new_settings_ok keys
        · rfl
        · exact absurd h hask
      have hy : ¬(keys.take 10).findSome? id = some 'y' := fun h =>
        hask (hiff.mpr h)
      rw [main_apply_decline base rest newP keys hfresh hask']
      simp only [List.head?_cons]
      constructor
      · intro h
        exact absurd (Option.some.inj h).symm hne
      · intro h
        exact absurd h hy
  · intro hask
    exact main_apply_decline base rest newP keys hfresh hask

/-- Claim C8 witness: a y-press in the second countdown step keeps the new
profile; silence declines and restores. -/
theorem c8_countdown_confirmation_witness :
    ((⟨"new.icc", ""⟩ : CdProfile) ∉ [(⟨"base.icc", ""⟩ : CdProfile)]) ∧
    ((main_apply ⟨"base.icc", ""⟩ [] ⟨"new.icc", ""⟩ true false true
        [none, some 'y']).head? = some ⟨"new.icc", ""⟩ ↔
      (([none, some 'y'] : List (Option Char)).take 10).findSome? id = some 'y') :=
  ⟨by decide,
    (c8_countdown_confirmation ⟨"base.icc", ""⟩ [] ⟨"new.icc", ""⟩
      [none, some 'y'] (by decide)).1⟩

/-! ### Claim C7: the remove path -/

/-- The remove path of `main` (lines 425-446) for a device whose profile
list is `base :: rest`: after the enabling message (when color management
was disabled) and the always-printed current-profile line, the profile is
removed only when it is tool-generated; `removeOk` is the answer of the service
to `remove_profile_sync`.  Result: device profile list, printed lines, and
process exit code. -/
def main_remove (base : CdProfile) (rest : List CdProfile)
    (enabled removeOk : Bool) : List CdProfile × List String × ℕ :=
  let out0 : List String :=
    if enabled then [] else ["Enabling color management for device"]
  let out1 := out0 ++ ["Current profile is " ++ profile_info base]
  if is_our_profile base then
    if removeOk then ((base :: rest).erase base, out1 ++ ["Removing profile"], 0)
    else (base :: rest,
      out1 ++ ["Removing profile",
        "WARNING: could not remove profile from device, aborting"], 0)
  else (base :: rest, out1, 0)

/-- Claim C7 (amended): when the current default profile was not created by
this tool, the remove run leaves the device profile list unchanged and
exits with code 0, but the only output is the informational current-profile
line (plus the enabling message when color management was off): no warning
about the skipped removal is printed. -/
theorem c7_remove_foreign_noop (base : CdProfile) (rest : List CdProfile)
    (enabled removeOk : Bool) (h : is_our_profile base = false) :
    main_remove base rest enabled removeOk =
      (base :: rest,
       (if enabled then [] else ["Enabling color management for device"]) ++
         ["Current profile is " ++ profile_info base], 0) := by
  simp only [main_remove, h, Bool.false_eq_true, if_false]

/-- Claim C7 witness: removing over a foreign (sRGB) default profile. -/
theorem c7_remove_foreign_noop_witness :
    is_our_profile ⟨"sRGB.icc", ""⟩ = false ∧
    main_remove ⟨"sRGB.icc", ""⟩ [] true true =
      ([⟨"sRGB.icc", ""⟩],
       (if true then ([] : List String) else ["Enabling color management for device"]) ++
         ["Current profile is " ++ profile_info ⟨"sRGB.icc", ""⟩], 0) :=
  ⟨by decide, c7_remove_foreign_noop ⟨"sRGB.icc", ""⟩ [] true true (by decide)⟩

/-- Claim C7 counterexample: in the foreign-profile remove run the claimed
informative warning message is absent; the complete output is the single
current-profile line, and no printed line contains the warning marker. -/
theorem c7_counterexample :
    main_remove ⟨"sRGB.icc", ""⟩ [] true true =
      ([⟨"sRGB.icc", ""⟩], ["Current profile is sRGB.icc"], 0) ∧
    ∀ s ∈ (main_remove ⟨"sRGB.icc", ""⟩ [] true true).2.1,
      ¬("WARNING".toList <:+: s.toList) := by
  constructor <;> decide

/-! ### Claim C9: display-index validation -/

/-- Python list indexing `self.devices[device_idx]` (`ProfileMgr.connect`,
line 293-294): a negative index counts from the end; an index out of range
on either side raises IndexError (`none`). -/
def py_index (l : List CdProfile) (i : ℤ) : Option CdProfile :=
  if 0 ≤ i then l.get? i.toNat
  else if 0 ≤ i + l.length then l.get? (i + l.length).toNat
  else none

/-- The display-count check of `main` (lines 418-420):
`if args.display >= display_count: exit(...)`. -/
def main_display_guard (display : ℤ) (count : ℕ) : Except String Unit :=
  if (count : ℤ) ≤ display then
    Except.error ("No such display, found " ++ toString count ++ " displays.")
  else Except.ok ()

/-- Claim C9 (amended): only indices `≥ device_count` are rejected (error
message, exit before any profile operation).  A negative index passes the
check, and for `-count ≤ display < 0` the run proceeds, operating on the
device selected by Python negative indexing (`count + display`), so e.g.
`-1` addresses the last display rather than exiting. -/
theorem c9_display_guard_amended (display : ℤ) (count : ℕ) :
    ((count : ℤ) ≤ display → main_display_guard display count =
      Except.error ("No such display, found " ++ toString count ++ " displays.")) ∧
    (display < (count : ℤ) → main_display_guard display count = Except.ok ()) ∧
    (∀ l : List CdProfile, l.length = count → -(count : ℤ) ≤ display → display < 0 →
      py_index l display = l.get? (display + count).toNat) := by
  refine ⟨?_, ?_, ?_⟩
  · intro h
    simp only [main_display_guard, if_pos h]
  · intro h
    simp only [main_display_guard, if_neg (not_le.mpr h)]
  · intro l hlen hlb hneg
    simp only [py_index, hlen, if_neg (not_le.mpr hneg),
      if_pos (by omega : (0 : ℤ) ≤ display + (count : ℤ))]

/-- Claim C9 counterexample: the display index `-1` is not a valid position
in `[0, 1)` for a one-device system, yet the guard passes and Python
indexing selects the (last) device, so the run proceeds with profile
operations instead of exiting. -/
theorem c9_counterexample :
    (-1 : ℤ) < 0 ∧
    main_display_guard (-1) 1 = Except.ok () ∧
    py_index [⟨"sRGB.icc", ""⟩] (-1) = some ⟨"sRGB.icc", ""⟩ :=
  ⟨by norm_num, rfl, rfl⟩

/-- Claim C9 witness at concrete inputs: index 5 with two devices is fatal
with the exact message; index 1 passes; index -2 selects device 0. -/
theorem c9_display_guard_amended_witness :
    main_display_guard 5 2 =
      Except.error ("No such display, found " ++ toString 2 ++ " displays.") ∧
    main_display_guard 1 2 = Except.ok () ∧
    py_index [⟨"a.icc", ""⟩, ⟨"b.icc", ""⟩] (-2) =
      [(⟨"a.icc", ""⟩ : CdProfile), ⟨"b.icc", ""⟩].get? ((-2 : ℤ) + (2 : ℕ)).toNat :=
  ⟨(c9_display_guard_amended 5 2).1 (by norm_num),
   (c9_display_guard_amended 1 2).2.1 (by norm_num),
   (c9_display_guard_amended (-2) 2).2.2 [⟨"a.icc", ""⟩, ⟨"b.icc", ""⟩] rfl
     (by norm_num) (by norm_num)⟩

end GGT
